import Mathlib

/-!
Verification of the transcribe-with-ai repository: a shallow embedding of the
pipeline scripts (Gemini/Claude transcription and summarization, local
faster-whisper transcription, YouTube audio fetching) together with proofs of
the behavioural properties claimed for them.

Python-side conventions used throughout the embedding:
* exceptions are modelled by the PyOutcome type (a normal return or a raised
  message), and a try/except block becomes a match that maps raised outcomes
  to the handler's value;
* external services (the Gemini API, subprocess runs, the filesystem, the
  mimetypes table, yt-dlp) are oracle parameters, so theorems quantify over
  every possible behaviour of the environment;
* Python strings are Lean Strings; slicing text[:n] is over code points,
  matching List.take on the character data.
-/

/-- Outcome of running a piece of Python code: either a normal value or a
raised exception carrying its message. -/
inductive PyOutcome (α : Type) : Type
  | ret (a : α)
  | raise (msg : String)
deriving DecidableEq

/-- Characters removed by the Python str.strip() default (whitespace). -/
def pyStripChars (l : List Char) : List Char :=
  ((l.dropWhile Char.isWhitespace).reverse.dropWhile Char.isWhitespace).reverse

/-- Python str.strip() with no argument: remove leading and trailing
whitespace. -/
def pyStrip (s : String) : String :=
  ⟨pyStripChars s.data⟩

/-- Python slicing text[:n] (by code points). -/
def pyTake (n : Nat) (s : String) : String :=
  ⟨s.data.take n⟩

/-- Python truthiness of an optional string: None and the empty string are
falsy, every other string is truthy. -/
def pyTruthyStr : Option String → Bool
  | none => false
  | some s => s != ""

/-- Python truthiness of an optional number: None and 0 are falsy. -/
def pyTruthyNum : Option Nat → Bool
  | none => false
  | some n => n != 0

/-- Python str.join semantics: the pieces concatenated with the separator
between consecutive pieces. -/
def pyJoin (sep : String) : List String → String
  | [] => ""
  | [s] => s
  | s :: rest => s ++ sep ++ pyJoin sep rest

/-- Python str.rfind for a single character, over the character data: the
index of the last occurrence, or -1 when absent. -/
def pyRfindAux (c : Char) : List Char → Nat → Int → Int
  | [], _, acc => acc
  | x :: xs, i, acc => pyRfindAux c xs (i + 1) (if x = c then Int.ofNat i else acc)

/-- Python str.rfind entry point. -/
def pyRfind (c : Char) (l : List Char) : Int :=
  pyRfindAux c l 0 (-1)

/-- Python os.path.splitext: split off the extension at the last dot of the
basename, where leading dots of the basename do not start an extension. -/
def splitext (p : String) : String × String :=
  let l := p.data
  let sepIndex := pyRfind '/' l
  let dotIndex := pyRfind '.' l
  if sepIndex < dotIndex then
    let name := (l.take dotIndex.toNat).drop (sepIndex + 1).toNat
    if name.any (fun c => c ≠ '.') then
      (⟨l.take dotIndex.toNat⟩, ⟨l.drop dotIndex.toNat⟩)
    else (p, "")
  else (p, "")

/-- Python str.replace over character data, scanning left to right and
replacing non-overlapping occurrences; the fuel argument (instantiated with
the length of the scanned list) only makes the recursion structural. -/
def pyReplaceAux (pat rep : List Char) : Nat → List Char → List Char
  | _, [] => []
  | 0, l => l
  | fuel + 1, c :: rest =>
    if pat ≠ [] ∧ pat.isPrefixOf (c :: rest) then
      rep ++ pyReplaceAux pat rep fuel ((c :: rest).drop pat.length)
    else c :: pyReplaceAux pat rep fuel rest

/-- Python str.replace(pat, rep). -/
def pyReplace (s pat rep : String) : String :=
  ⟨pyReplaceAux pat.data rep.data s.data.length s.data⟩

/-- Substring relation on strings: p occurs contiguously inside s. -/
def substrOf (p s : String) : Prop :=
  ∃ a b, s = a ++ p ++ b

/-- Result of subprocess.run with capture_output=True. -/
structure SubprocResult : Type where
  returncode : Int
  stdout : String
  stderr : String
deriving DecidableEq

/-- Oracle for the remote Gemini service as used by the scripts:
genai.upload_file (given path and mime type, returning the remote file name),
model.generate_content followed by the response.text accessor (given the
uploaded file, returning the produced text), and genai.delete_file.  Each call
may raise. -/
structure GeminiBackend : Type where
  upload : String → String → PyOutcome String
  generate : String → PyOutcome String
  deleteFile : String → PyOutcome Unit

/-- Python str.upper over the character data. -/
def pyUpper (s : String) : String :=
  ⟨s.data.map Char.toUpper⟩

/-- Python str.lower over the character data (ASCII lowering, as used on
file extensions). -/
def pyLower (s : String) : String :=
  ⟨s.data.map Char.toLower⟩

/-- Translation of get_mime_type from transcribe_with_gemini.py (lines 25-41):
ask the mimetypes table (the guess oracle) first, keep its answer when it is a
truthy audio/ type, otherwise look the lowered extension up in the fixed map,
defaulting to audio/wav. -/
def twg_get_mime_type (guess : String → Option String) (audio_path : String) : String :=
  let mime_type := guess audio_path
  let keep := match mime_type with
    | some m => m != "" && m.startsWith "audio/"
    | none => false
  if keep then mime_type.getD ""
  else
    let ext := pyLower (splitext audio_path).2
    (List.lookup ext [(".mp3", "audio/mpeg"), (".wav", "audio/wav"),
      (".m4a", "audio/mp4"), (".aac", "audio/aac"), (".flac", "audio/flac"),
      (".ogg", "audio/ogg")]).getD "audio/wav"

/-- Translation of get_mime_type from gemini_claude_app.py (lines 25-41); the
source is character-for-character the same function as in
transcribe_with_gemini.py. -/
def gca_get_mime_type (guess : String → Option String) (audio_path : String) : String :=
  let mime_type := guess audio_path
  let keep := match mime_type with
    | some m => m != "" && m.startsWith "audio/"
    | none => false
  if keep then mime_type.getD ""
  else
    let ext := pyLower (splitext audio_path).2
    (List.lookup ext [(".mp3", "audio/mpeg"), (".wav", "audio/wav"),
      (".m4a", "audio/mp4"), (".aac", "audio/aac"), (".flac", "audio/flac"),
      (".ogg", "audio/ogg")]).getD "audio/wav"

/-- Translation of get_mime_type from gemini_app.py (lines 25-41); again the
same duplicated source text. -/
def ga_get_mime_type (guess : String → Option String) (audio_path : String) : String :=
  let mime_type := guess audio_path
  let keep := match mime_type with
    | some m => m != "" && m.startsWith "audio/"
    | none => false
  if keep then mime_type.getD ""
  else
    let ext := pyLower (splitext audio_path).2
    (List.lookup ext [(".mp3", "audio/mpeg"), (".wav", "audio/wav"),
      (".m4a", "audio/mp4"), (".aac", "audio/aac"), (".flac", "audio/flac"),
      (".ogg", "audio/ogg")]).getD "audio/wav"

/-- Translation of transcribe_with_gemini from transcribe_with_gemini.py
(lines 43-68) and gemini_claude_app.py (lines 43-68): compute the mime type,
upload, generate, delete the upload, return the text; the surrounding
try/except turns any raised exception into a None return.  The second
component records whether genai.delete_file was invoked. -/
def twg_transcribe_with_gemini (guess : String → Option String)
    (b : GeminiBackend) (audio_path : String) : PyOutcome (Option String) × Bool :=
  let mime_type := twg_get_mime_type guess audio_path
  match b.upload audio_path mime_type with
  | .raise _ => (.ret none, false)
  | .ret uploaded_file =>
    match b.generate uploaded_file with
    | .raise _ => (.ret none, false)
    | .ret text =>
      match b.deleteFile uploaded_file with
      | .raise _ => (.ret none, true)
      | .ret _ => (.ret (some text), true)

/-- Prompt construction inside summarize_with_claude of
transcribe_with_gemini.py (lines 74-81). -/
def twg_build_prompt (text task : String) : String :=
  if task = "summarize" then
    "Please provide a concise summary of the following transcript:\n\n" ++ text
  else if task = "translate" then
    "Please translate the following transcript to English:\n\n" ++ text
  else if task = "analyze" then
    "Please analyze the key points and themes in the following transcript:\n\n" ++ text
  else
    "Please " ++ task ++ " the following transcript:\n\n" ++ text

/-- Translation of summarize_with_claude from transcribe_with_gemini.py
(lines 70-96): build the prompt, run the claude CLI, return the stripped
stdout on exit code 0, None on a non-zero exit, and None when the subprocess
call raises (the try/except). -/
def twg_summarize_with_claude (run : List String → PyOutcome SubprocResult)
    (text task : String) : PyOutcome (Option String) :=
  let prompt := twg_build_prompt text task
  match run ["claude", "say", prompt] with
  | .raise _ => .ret none
  | .ret result =>
    if result.returncode = 0 then .ret (some (pyStrip result.stdout))
    else .ret none

/-- Prompt construction inside process_with_claude of gemini_claude_app.py
(lines 74-81). -/
def gca_build_prompt (text task target_language : String) : String :=
  if task = "summarize" then
    "Please provide a concise summary of the following transcript in " ++ target_language ++ ":\n\n" ++ text
  else if task = "translate" then
    "Please translate the following transcript to " ++ target_language ++ ":\n\n" ++ text
  else if task = "analyze" then
    "Please analyze the key points and themes in the following transcript in " ++ target_language ++ ":\n\n" ++ text
  else
    "Please " ++ task ++ " the following transcript in " ++ target_language ++ ":\n\n" ++ text

/-- Prompt construction inside process_with_gemini of gemini_app.py
(lines 77-84); the source text of the four templates is identical to the one
in gemini_claude_app.py. -/
def ga_build_prompt (text task target_language : String) : String :=
  if task = "summarize" then
    "Please provide a concise summary of the following transcript in " ++ target_language ++ ":\n\n" ++ text
  else if task = "translate" then
    "Please translate the following transcript to " ++ target_language ++ ":\n\n" ++ text
  else if task = "analyze" then
    "Please analyze the key points and themes in the following transcript in " ++ target_language ++ ":\n\n" ++ text
  else
    "Please " ++ task ++ " the following transcript in " ++ target_language ++ ":\n\n" ++ text

/-- Translation of transcribe_audio from transcribe_and_summarize.py
(lines 10-24): the loop appends every segment text followed by a space onto
the accumulator, and the result is stripped; the segment texts (in emission
order) are the input list.  Only the text is returned; the detected language
is printed, not returned. -/
def tas_transcribe_audio (segments : List String) : String :=
  pyStrip (segments.foldl (fun transcription segment => transcription ++ segment ++ " ") "")

/-- Translation of transcribe_audio from youtube_transcribe_app.py
(lines 55-70): each segment text is stripped and collected, the list is
joined with a single space, and the detected language plus the segment count
are returned alongside. -/
def yta_transcribe_audio (segments : List String) (language : String) : String × String × Nat :=
  (pyJoin " " (segments.map pyStrip), language, segments.length)

/-- Translation of transcribe_audio from quick_transcribe.py (lines 11-26):
the raw segment texts are collected and joined with a single space; only the
text is returned (the language is printed, not returned). -/
def qt_transcribe_audio (segments : List String) : String :=
  pyJoin " " segments

/-- Translation of download_audio from youtube_downloader.py (lines 5-52) and
of download_youtube_audio from gemini_claude_app.py (lines 98-145): the
extraction oracle yields the declared filename (ydl.prepare_filename), the
title and the duration, or raises; when the declared name does not exist but
the name with .webm replaced by .m4a does, the corrected name is used; the
chosen name is returned only if it exists, otherwise the function raises, and
the except clause wraps every raised message in an Error: prefix. -/
def yd_download_audio (fs : String → Bool)
    (extract : PyOutcome (String × String × Nat)) : PyOutcome (String × String × Nat) :=
  match extract with
  | .raise e => .raise ("Error: " ++ e)
  | .ret (declared, video_title, duration) =>
    let filename :=
      if !fs declared && fs (pyReplace declared ".webm" ".m4a") then
        pyReplace declared ".webm" ".m4a"
      else declared
    if fs filename then .ret (filename, video_title, duration)
    else .raise ("Error: " ++ "Failed to download audio")

/-- Translation of format_duration from youtube_downloader.py (lines 54-66),
duplicated verbatim in gemini_claude_app.py (lines 147-159) and
youtube_transcribe_app.py: a falsy argument (None or 0) yields Unknown,
otherwise the value is decomposed into hours, minutes and seconds, omitting
the hour field when it is zero and the minute field when hours and minutes
are both zero. -/
def format_duration (seconds : Option Nat) : String :=
  if pyTruthyNum seconds then
    let s := seconds.getD 0
    let hours := s / 3600
    let minutes := (s % 3600) / 60
    let secs := s % 60
    if hours > 0 then
      toString hours ++ "h " ++ toString minutes ++ "m " ++ toString secs ++ "s"
    else if minutes > 0 then
      toString minutes ++ "m " ++ toString secs ++ "s"
    else
      toString secs ++ "s"
  else "Unknown"

/-- Translation of the post-transcription tail of main in
transcribe_with_gemini.py (lines 127-134): when the Claude result is falsy
the script falls back to the transcript, and the output content interpolates
the transcript and the (possibly substituted) processed text. -/
def twg_main_output (transcript : String) (claudeResult : Option String) (task : String) : String :=
  let processed_text := if pyTruthyStr claudeResult then claudeResult.getD "" else transcript
  "=== ORIGINAL TRANSCRIPT ===\n" ++ transcript ++ "\n\n=== CLAUDE " ++ pyUpper task ++ " ===\n" ++ processed_text

/-- Translation of the post-transcription tail of main in local_transcribe.py
(lines 94-115): the transcript is always kept (written to the transcript
file), and the Claude output is kept only when it is truthy; on a falsy
Claude result no processed text is produced at all. -/
def lt_main_result (transcription : String) (claudeResult : Option String) : String × Option String :=
  (transcription, if pyTruthyStr claudeResult then claudeResult else none)

/-- Prompt construction inside summarize_with_claude of
youtube_transcribe_app.py (lines 72-89): the template depends on whether the
detected language is en, and the transcript is cut to its first 2500
characters. -/
def yta_claude_prompt (text language : String) : String :=
  if language ≠ "en" then
    "This is a transcription in " ++ language ++ " language. Please:\n1. Identify the main topic\n2. Provide a brief English summary (2-3 sentences)\n3. List 3-5 key points\n\nTranscription (excerpt):\n" ++ pyTake 2500 text
  else
    "Please analyze this transcription and provide:\n1. A concise summary (2-3 sentences)\n2. Main topics discussed\n3. Key takeaways (3-5 bullet points)\n\nTranscription (excerpt):\n" ++ pyTake 2500 text

/-- Prompt construction inside process_with_claude of transcribe_full.py
(lines 45-61): same shape as the youtube_transcribe_app variant but with a
3000 character cut. -/
def tf_claude_prompt (text language : String) : String :=
  if language ≠ "en" then
    "This is a transcription in " ++ language ++ " language. Please:\n1. Identify the main topic\n2. Provide a brief English summary (2-3 sentences)\n3. List 3-5 key points mentioned\n\nTranscription:\n" ++ pyTake 3000 text
  else
    "Please analyze this transcription and provide:\n1. A concise summary (2-3 sentences)\n2. Main topics discussed\n3. Key takeaways (3-5 bullet points)\n\nTranscription:\n" ++ pyTake 3000 text

/-- Prompt construction in the main of quick_transcribe.py (line 72): a fixed
template with the transcript cut to its first 4000 characters. -/
def qt_claude_prompt (text : String) : String :=
  "Summarize this transcription in 3-5 key points:\n\n" ++ pyTake 4000 text


/-- Helper spec for the segment loops: every piece followed by a space,
concatenated. -/
def joinTrail : List String → String
  | [] => ""
  | s :: rest => s ++ " " ++ joinTrail rest

/-- A string with a nonempty body whose first and last characters are not
whitespace. -/
def noEdgeWs (s : String) : Prop :=
  s.data ≠ [] ∧ (s.data.headD ' ').isWhitespace = false ∧ (s.data.getLastD ' ').isWhitespace = false

instance (s : String) : Decidable (noEdgeWs s) := by
  unfold noEdgeWs
  infer_instance

theorem pyTake_empty (n : Nat) : pyTake n "" = "" := by
  unfold pyTake
  rw [List.take_nil]

theorem space_isWhitespace : (' ').isWhitespace = true := by decide

theorem dropWhile_reverse_of_last (l : List Char) (hl : (l.getLastD ' ').isWhitespace = false) :
    l.reverse.dropWhile Char.isWhitespace = l.reverse := by
  cases hrev : l.reverse with
  | nil => rfl
  | cons d ds =>
    have hd : l.getLast? = some d := by
      rw [← List.head?_reverse, hrev]; rfl
    have heq : l.getLastD ' ' = d := by
      rw [List.getLastD_eq_getLast? ' ' l, hd]; rfl
    have hdw : d.isWhitespace = false := heq ▸ hl
    rw [List.dropWhile_cons, hdw]
    simp

theorem pyStripChars_of_no_edge (l : List Char) (hne : l ≠ [])
    (hh : (l.headD ' ').isWhitespace = false)
    (hl : (l.getLastD ' ').isWhitespace = false) :
    pyStripChars l = l := by
  obtain ⟨c, cs, hcc⟩ := List.exists_cons_of_ne_nil hne
  have hcw : c.isWhitespace = false := by
    rw [hcc] at hh; exact hh
  unfold pyStripChars
  rw [hcc, List.dropWhile_cons, hcw]
  simp only [Bool.false_eq_true, if_false]
  rw [← hcc, dropWhile_reverse_of_last l hl, List.reverse_reverse]

theorem pyStrip_append_space (J : String) (hne : J.data ≠ [])
    (hh : (J.data.headD ' ').isWhitespace = false)
    (hl : (J.data.getLastD ' ').isWhitespace = false) :
    pyStrip (J ++ " ") = J := by
  obtain ⟨c, cs, hcc⟩ := List.exists_cons_of_ne_nil hne
  have hcw : c.isWhitespace = false := by
    rw [hcc] at hh; exact hh
  have hdata : (J ++ " ").data = J.data ++ [' '] := by
    rw [String.data_append]
  unfold pyStrip pyStripChars
  rw [hdata, hcc, List.cons_append, List.dropWhile_cons, hcw]
  simp only [Bool.false_eq_true, if_false]
  rw [← List.cons_append, ← hcc, List.reverse_append]
  have h1 : ([' '] : List Char).reverse ++ J.data.reverse = ' ' :: J.data.reverse := rfl
  rw [h1, List.dropWhile_cons, space_isWhitespace]
  simp only [if_true]
  rw [dropWhile_reverse_of_last J.data hl, List.reverse_reverse]


theorem tas_foldl_trail (segments : List String) :
    ∀ acc : String, segments.foldl (fun a s => a ++ s ++ " ") acc = acc ++ joinTrail segments := by
  induction segments with
  | nil => intro acc; simp [joinTrail, String.append_empty]
  | cons s rest ih =>
    intro acc
    rw [List.foldl_cons, ih]
    show acc ++ s ++ " " ++ joinTrail rest = acc ++ (s ++ " " ++ joinTrail rest)
    rw [String.append_assoc, String.append_assoc, String.append_assoc s " " (joinTrail rest)]

theorem joinTrail_eq_join (segments : List String) (hne : segments ≠ []) :
    joinTrail segments = pyJoin " " segments ++ " " := by
  induction segments with
  | nil => cases hne rfl
  | cons s rest ih =>
    cases rest with
    | nil =>
      show s ++ " " ++ joinTrail [] = pyJoin " " [s] ++ " "
      show s ++ " " ++ "" = s ++ " "
      rw [String.append_empty]
    | cons s2 r2 =>
      show s ++ " " ++ joinTrail (s2 :: r2) = (s ++ " " ++ pyJoin " " (s2 :: r2)) ++ " "
      rw [ih (by simp), ← String.append_assoc]

theorem pyJoin_data_ne_nil (s : String) (rest : List String) (hs : s.data ≠ []) :
    (pyJoin " " (s :: rest)).data ≠ [] := by
  cases rest with
  | nil => exact hs
  | cons s2 r2 =>
    show ((s ++ " " ++ pyJoin " " (s2 :: r2))).data ≠ []
    rw [String.data_append, String.data_append]
    intro hc
    rw [List.append_assoc] at hc
    exact hs (List.append_eq_nil.mp hc).1

theorem pyJoin_headD (s : String) (rest : List String) (hs : s.data ≠ []) :
    ((pyJoin " " (s :: rest)).data.headD ' ') = s.data.headD ' ' := by
  obtain ⟨c, cs, hcc⟩ := List.exists_cons_of_ne_nil hs
  cases rest with
  | nil => rfl
  | cons s2 r2 =>
    show ((s ++ " " ++ pyJoin " " (s2 :: r2))).data.headD ' ' = s.data.headD ' '
    rw [String.data_append, String.data_append, hcc, List.append_assoc, List.cons_append]
    rfl

theorem pyJoin_getLast_ws (segments : List String)
    (h : ∀ s ∈ segments, s.data ≠ [] ∧ (s.data.getLastD ' ').isWhitespace = false) :
    segments ≠ [] → ((pyJoin " " segments).data.getLastD ' ').isWhitespace = false := by
  induction segments with
  | nil => intro hne; cases hne rfl
  | cons s rest ih =>
    intro _
    cases rest with
    | nil => exact (h s (by simp)).2
    | cons s2 r2 =>
      show (((s ++ " " ++ pyJoin " " (s2 :: r2))).data.getLastD ' ').isWhitespace = false
      have hJ : (pyJoin " " (s2 :: r2)).data ≠ [] :=
        pyJoin_data_ne_nil s2 r2 (h s2 (by simp)).1
      rw [String.data_append, List.getLastD_eq_getLast? ' ',
          List.getLast?_append_of_ne_nil _ hJ, ← List.getLastD_eq_getLast? ' ']
      exact ih (fun x hx => h x (List.mem_cons_of_mem _ hx)) (by simp)


theorem pyStrip_of_noEdgeWs (s : String) (h : noEdgeWs s) : pyStrip s = s := by
  obtain ⟨h1, h2, h3⟩ := h
  unfold pyStrip
  rw [pyStripChars_of_no_edge s.data h1 h2 h3]

/-- C5 (amended): for every finite sequence of segments whose texts are
nonempty and have no leading or trailing whitespace, each local-model
transcribe variant returns exactly the segment texts concatenated in
emission order with a single separating space; the detected-language tag is
surfaced by the youtube_transcribe_app variant (the transcribe_and_summarize
and quick_transcribe variants return only the text). -/
theorem c5_single_space_join (segments : List String) (language : String)
    (h : ∀ s ∈ segments, noEdgeWs s) :
    tas_transcribe_audio segments = pyJoin " " segments ∧
    yta_transcribe_audio segments language = (pyJoin " " segments, language, segments.length) ∧
    qt_transcribe_audio segments = pyJoin " " segments := by
  refine ⟨?_, ?_, rfl⟩
  · cases segments with
    | nil => rfl
    | cons s rest =>
      unfold tas_transcribe_audio
      rw [tas_foldl_trail, joinTrail_eq_join _ (by simp), String.empty_append]
      apply pyStrip_append_space
      · exact pyJoin_data_ne_nil s rest (h s (by simp)).1
      · rw [pyJoin_headD s rest (h s (by simp)).1]
        exact (h s (by simp)).2.1
      · exact pyJoin_getLast_ws (s :: rest) (fun x hx => ⟨(h x hx).1, (h x hx).2.2⟩) (by simp)
  · unfold yta_transcribe_audio
    have hmap : segments.map pyStrip = segments.map id :=
      List.map_congr_left (fun a ha => pyStrip_of_noEdgeWs a (h a ha))
    rw [hmap, List.map_id]

/-- C1 counterexample: a backend whose generation step yields the
whitespace-only text makes the remote transcribe variant return that blank
text as a success (not a failure), contradicting the claim that an empty or
whitespace-only backend result always becomes a failure. -/
theorem c1_counterexample :
    twg_transcribe_with_gemini (fun _ => none)
      ⟨fun _ _ => .ret "files/x", fun _ => .ret " ", fun _ => .ret ()⟩ "a.mp3" =
      (.ret (some " "), true) ∧
    pyStrip " " = "" := by
  exact ⟨rfl, by decide⟩

/-- C1 (amended): neither variant checks the transcription result for
emptiness.  Whenever the backend calls succeed, the remote variant returns
the backend text verbatim as a success, blank or not; and the local variant
returns the stripped concatenation of the segment texts, which is the empty
string (a normal return, not a failure) when every segment text is
whitespace-only. -/
theorem c1_blank_passthrough :
    (∀ (guess : String → Option String) (b : GeminiBackend) (p f t : String),
        b.upload p (twg_get_mime_type guess p) = .ret f →
        b.generate f = .ret t →
        b.deleteFile f = .ret () →
        twg_transcribe_with_gemini guess b p = (.ret (some t), true)) ∧
    (∀ segments : List String,
        (∀ s ∈ segments, ∀ c ∈ s.data, c.isWhitespace) →
        tas_transcribe_audio segments = "") := by
  constructor
  · intro guess b p f t h1 h2 h3
    simp [twg_transcribe_with_gemini, h1, h2, h3]
  · intro segments h
    have hws : ∀ c ∈ (segments.foldl (fun a s => a ++ s ++ " ") "").data, c.isWhitespace := by
      have key : ∀ (l : List String) (acc : String),
          (∀ c ∈ acc.data, c.isWhitespace = true) →
          (∀ s ∈ l, ∀ c ∈ s.data, c.isWhitespace = true) →
          ∀ c ∈ (l.foldl (fun a s => a ++ s ++ " ") acc).data, c.isWhitespace = true := by
        intro l
        induction l with
        | nil =>
          intro acc hacc _
          exact hacc
        | cons s rest ih =>
          intro acc hacc hl
          apply ih
          · intro c hc
            rw [String.data_append, String.data_append] at hc
            rcases List.mem_append.mp hc with hc' | hc'
            · rcases List.mem_append.mp hc' with hc'' | hc''
              · exact hacc c hc''
              · exact hl s (by simp) c hc''
            · have : c = ' ' := by simpa using hc'
              rw [this]
              decide
          · intro x hx
            exact hl x (List.mem_cons_of_mem _ hx)
      exact key segments "" (by intro c hc; cases hc) h
    unfold tas_transcribe_audio pyStrip pyStripChars
    have h1 : (segments.foldl (fun a s => a ++ s ++ " ") "").data.dropWhile Char.isWhitespace = [] :=
      List.dropWhile_eq_nil_iff.mpr hws
    rw [h1]
    rfl

/-- C1 witness: instantiating the amended claim at a successful backend and
at whitespace-only segments. -/
theorem c1_witness :
    twg_transcribe_with_gemini (fun _ => none)
      ⟨fun _ _ => .ret "f", fun _ => .ret "hello", fun _ => .ret ()⟩ "a.mp3" =
      (.ret (some "hello"), true) ∧
    tas_transcribe_audio [" ", "  "] = "" :=
  ⟨c1_blank_passthrough.1 (fun _ => none)
      ⟨fun _ _ => .ret "f", fun _ => .ret "hello", fun _ => .ret ()⟩ "a.mp3" "f" "hello" rfl rfl rfl,
   c1_blank_passthrough.2 [" ", "  "] (by decide)⟩

/-- C2 counterexample: a backend whose upload succeeds and whose generation
step raises makes the remote transcribe variant return without ever calling
genai.delete_file, contradicting the claim that the uploaded resource is
released on every failure path. -/
theorem c2_counterexample :
    (GeminiBackend.upload
        ⟨fun _ _ => .ret "files/x", fun _ => .raise "500", fun _ => .ret ()⟩)
      "a.mp3" (twg_get_mime_type (fun _ => none) "a.mp3") = .ret "files/x" ∧
    twg_transcribe_with_gemini (fun _ => none)
      ⟨fun _ _ => .ret "files/x", fun _ => .raise "500", fun _ => .ret ()⟩ "a.mp3" =
      (.ret none, false) := by
  exact ⟨rfl, rfl⟩

/-- C2 (amended): the remote variant calls genai.delete_file exactly when
both the upload and the generate step succeed; when the generate step raises
after a successful upload (or the upload itself raises), the uploaded remote
resource is not released. -/
theorem c2_cleanup_on_success_only :
    ∀ (guess : String → Option String) (b : GeminiBackend) (p : String),
      (twg_transcribe_with_gemini guess b p).2 = true ↔
        ∃ f, b.upload p (twg_get_mime_type guess p) = .ret f ∧
          ∃ t, b.generate f = .ret t := by
  intro guess b p
  simp only [twg_transcribe_with_gemini]
  cases hu : b.upload p (twg_get_mime_type guess p) with
  | raise e => simp
  | ret f =>
    cases hg : b.generate f with
    | raise e => simp [hg]
    | ret t =>
      cases hd : b.deleteFile f with
      | raise e => simp [hg, hd]
      | ret u => simp [hg, hd]

/-- C3 counterexample: with the text-processing step failing, every
configuration of the transcribe_with_gemini CLI (its whole argparse surface
for the task is summarize, translate and analyze) substitutes the transcript
for the processed text, while the local_transcribe CLI omits the processed
output entirely; no caller-supplied option selects between the two policies,
contradicting the claim that omit and fall-back are explicit configuration
options of the run. -/
theorem c3_counterexample :
    twg_main_output "T" none "summarize" =
      "=== ORIGINAL TRANSCRIPT ===\nT\n\n=== CLAUDE SUMMARIZE ===\nT" ∧
    twg_main_output "T" none "translate" =
      "=== ORIGINAL TRANSCRIPT ===\nT\n\n=== CLAUDE TRANSLATE ===\nT" ∧
    twg_main_output "T" none "analyze" =
      "=== ORIGINAL TRANSCRIPT ===\nT\n\n=== CLAUDE ANALYZE ===\nT" ∧
    lt_main_result "T" none = ("T", none) := by
  refine ⟨by decide, by decide, by decide, rfl⟩

/-- C3 (amended): when transcription succeeded and the processing step
failed (a falsy Claude result), neither script aborts: the
transcribe_with_gemini CLI always emits the transcript with the processed
section falling back to the transcript text, and the local_transcribe CLI
always keeps the transcript with the processed output absent; the policy is
fixed per script, not caller-configurable. -/
theorem c3_graceful_degrade :
    ∀ (transcript task : String) (claudeResult : Option String),
      pyTruthyStr claudeResult = false →
      twg_main_output transcript claudeResult task =
        "=== ORIGINAL TRANSCRIPT ===\n" ++ transcript ++ "\n\n=== CLAUDE " ++
          pyUpper task ++ " ===\n" ++ transcript ∧
      lt_main_result transcript claudeResult = (transcript, none) := by
  intro transcript task claudeResult h
  constructor
  · simp [twg_main_output, h]
  · simp [lt_main_result, h]

/-- C3 witness: instantiating the amended claim at a concrete failed
processing result. -/
theorem c3_witness :
    twg_main_output "X" (some "") "analyze" =
      "=== ORIGINAL TRANSCRIPT ===\n" ++ "X" ++ "\n\n=== CLAUDE " ++
        pyUpper "analyze" ++ " ===\n" ++ "X" ∧
    lt_main_result "X" (some "") = ("X", none) :=
  c3_graceful_degrade "X" "analyze" (some "") (by decide)

/-- C4: the instruction-prompt construction of the text-processing provider
is a pure function of the text, the task and the target language; the
gemini_claude_app (Claude CLI) and gemini_app (Gemini API) variants build
identical prompts; the prompt factors into a template chosen only by the
task and language followed by the text; and for the translate task with
target language French and text Hello world, the prompt contains the literal
substrings demanded by the claim. -/
theorem c4_prompt_template :
    (∀ text task target_language : String,
        gca_build_prompt text task target_language = ga_build_prompt text task target_language) ∧
    (∀ text task target_language : String,
        gca_build_prompt text task target_language =
          gca_build_prompt "" task target_language ++ text) ∧
    substrOf "translate the following transcript to French"
      (gca_build_prompt "Hello world" "translate" "French") ∧
    substrOf "Hello world" (gca_build_prompt "Hello world" "translate" "French") := by
  refine ⟨fun _ _ _ => rfl, ?_, ?_, ?_⟩
  · intro text task target_language
    unfold gca_build_prompt
    split
    · rw [String.append_empty]
    · split
      · rw [String.append_empty]
      · split
        · rw [String.append_empty]
        · rw [String.append_empty]
  · exact ⟨"Please ", ":\n\nHello world", by decide⟩
  · exact ⟨"Please translate the following transcript to French:\n\n", "", by decide⟩

/-- C5 counterexample: with an empty segment text in the emitted sequence,
the transcribe_and_summarize variant produces a doubled separating space,
contradicting the claim that for every finite sequence of segments the
result has single separating spaces and no doubled spaces. -/
theorem c5_counterexample :
    tas_transcribe_audio ["a", "", "b"] = "a  b" ∧
    substrOf "  " (tas_transcribe_audio ["a", "", "b"]) := by
  refine ⟨by decide, "a", "b", by decide⟩

/-- C5 witness: instantiating the amended claim at a concrete clean segment
sequence. -/
theorem c5_witness :
    tas_transcribe_audio ["hello", "world"] = pyJoin " " ["hello", "world"] ∧
    yta_transcribe_audio ["hello", "world"] "en" = (pyJoin " " ["hello", "world"], "en", 2) ∧
    qt_transcribe_audio ["hello", "world"] = pyJoin " " ["hello", "world"] :=
  c5_single_space_join ["hello", "world"] "en" (by decide)

/-- C6: the file-extension-to-MIME-type classification is the same function
in the transcribe_with_gemini, gemini_claude_app and gemini_app variants,
and whenever the mimetypes oracle does not produce a truthy audio type and
the lowered extension is not in the recognized map, the classifier returns
the fixed fallback audio/wav. -/
theorem c6_mime_shared_fallback :
    (∀ (guess : String → Option String) (p : String),
        twg_get_mime_type guess p = gca_get_mime_type guess p ∧
        gca_get_mime_type guess p = ga_get_mime_type guess p) ∧
    (∀ (guess : String → Option String) (p : String),
        (∀ m, guess p = some m → ((m != "") && m.startsWith "audio/") = false) →
        List.lookup (pyLower (splitext p).2)
          [(".mp3", "audio/mpeg"), (".wav", "audio/wav"), (".m4a", "audio/mp4"),
           (".aac", "audio/aac"), (".flac", "audio/flac"), (".ogg", "audio/ogg")] = none →
        twg_get_mime_type guess p = "audio/wav") := by
  refine ⟨fun _ _ => ⟨rfl, rfl⟩, ?_⟩
  intro guess p hguess hlookup
  unfold twg_get_mime_type
  cases hg : guess p with
  | none => simp [hlookup]
  | some m => simp [hlookup, hguess m hg]

/-- C6 witness: an unrecognized extension with a silent mimetypes table
falls back to audio/wav. -/
theorem c6_witness :
    twg_get_mime_type (fun _ => none) "song.xyz" = "audio/wav" :=
  c6_mime_shared_fallback.2 (fun _ => none) "song.xyz"
    (fun _ h => Option.noConfusion h) (by decide)

/-- C7: whenever the YouTube fetcher returns successfully, the returned path
exists on disk; when the declared filename does not exist but the name with
.webm replaced by .m4a does, the corrected existing path is returned; and
when neither name exists the fetcher raises instead of returning a dangling
path. -/
theorem c7_fetch_path_exists :
    (∀ (fs : String → Bool) (extract : PyOutcome (String × String × Nat))
        (out : String × String × Nat),
        yd_download_audio fs extract = .ret out → fs out.1 = true) ∧
    (∀ (fs : String → Bool) (declared video_title : String) (duration : Nat),
        fs declared = false → fs (pyReplace declared ".webm" ".m4a") = true →
        yd_download_audio fs (.ret (declared, video_title, duration)) =
          .ret (pyReplace declared ".webm" ".m4a", video_title, duration)) ∧
    (∀ (fs : String → Bool) (declared video_title : String) (duration : Nat),
        fs declared = false → fs (pyReplace declared ".webm" ".m4a") = false →
        yd_download_audio fs (.ret (declared, video_title, duration)) =
          .raise ("Error: " ++ "Failed to download audio")) := by
  refine ⟨?_, ?_, ?_⟩
  · intro fs extract out h
    cases extract with
    | raise e => exact PyOutcome.noConfusion h
    | ret v =>
      obtain ⟨declared, video_title, duration⟩ := v
      simp only [yd_download_audio] at h
      split at h
      · split at h
        · injection h with h'
          subst h'
          assumption
        · exact PyOutcome.noConfusion h
      · split at h
        · injection h with h'
          subst h'
          assumption
        · exact PyOutcome.noConfusion h
  · intro fs declared video_title duration h1 h2
    simp [yd_download_audio, h1, h2]
  · intro fs declared video_title duration h1 h2
    simp [yd_download_audio, h1, h2]

/-- C7 witness: the probe corrects a declared .webm name to the existing
.m4a file, and raises when no file exists under either name. -/
theorem c7_witness :
    yd_download_audio (fun s => s == "v.m4a") (.ret ("v.webm", "t", 5)) =
      .ret (pyReplace "v.webm" ".webm" ".m4a", "t", 5) ∧
    yd_download_audio (fun _ => false) (.ret ("v.webm", "t", 5)) =
      .raise ("Error: " ++ "Failed to download audio") :=
  ⟨c7_fetch_path_exists.2.1 (fun s => s == "v.m4a") "v.webm" "t" 5 (by decide) (by decide),
   c7_fetch_path_exists.2.2 (fun _ => false) "v.webm" "t" 5 rfl rfl⟩

/-- C8 counterexample: a 2501-character transcript yields, in the
youtube_transcribe_app command-line call site, exactly the same prompt as
its own 2500-character truncation, although the two transcripts differ; the
cut happens at the fixed constant 2500 with no caller-supplied bound,
contradicting the claim that the maximum character count is a configurable
parameter supplied by the caller. -/
theorem c8_counterexample :
    yta_claude_prompt (String.mk (List.replicate 2501 'a')) "en" =
      yta_claude_prompt (String.mk (List.replicate 2500 'a')) "en" ∧
    String.mk (List.replicate 2501 'a') ≠ String.mk (List.replicate 2500 'a') := by
  constructor
  · have hta : pyTake 2500 (String.mk (List.replicate 2501 'a')) =
        pyTake 2500 (String.mk (List.replicate 2500 'a')) := by
      unfold pyTake
      show String.mk (List.take 2500 (List.replicate 2501 'a')) =
        String.mk (List.take 2500 (List.replicate 2500 'a'))
      rw [List.take_replicate, List.take_replicate]
      norm_num
    unfold yta_claude_prompt
    rw [if_neg (fun hcon => hcon rfl), if_neg (fun hcon => hcon rfl), hta]
  · intro hcon
    have h1 : List.replicate 2501 'a' = List.replicate 2500 'a' := congrArg String.data hcon
    have h2 := congrArg List.length h1
    rw [List.length_replicate, List.length_replicate] at h2
    exact absurd h2 (by norm_num)

/-- C8 (amended): the transcript cut sent to the command-line backend is a
fixed per-call-site constant, not a caller parameter: 2500 characters in
youtube_transcribe_app, 3000 in transcribe_full and 4000 in
quick_transcribe; the remote-API variant (gemini_app process_with_gemini)
sends the full transcript with no truncation. -/
theorem c8_fixed_truncation :
    (∀ text language, yta_claude_prompt text language =
        yta_claude_prompt "" language ++ pyTake 2500 text) ∧
    (∀ text language, tf_claude_prompt text language =
        tf_claude_prompt "" language ++ pyTake 3000 text) ∧
    (∀ text, qt_claude_prompt text = qt_claude_prompt "" ++ pyTake 4000 text) ∧
    (∀ text task target_language, ga_build_prompt text task target_language =
        ga_build_prompt "" task target_language ++ text) := by
  refine ⟨?_, ?_, ?_, ?_⟩
  · intro text language
    unfold yta_claude_prompt
    rw [pyTake_empty]
    split
    · rw [String.append_empty]
    · rw [String.append_empty]
  · intro text language
    unfold tf_claude_prompt
    rw [pyTake_empty]
    split
    · rw [String.append_empty]
    · rw [String.append_empty]
  · intro text
    unfold qt_claude_prompt
    rw [pyTake_empty, String.append_empty]
  · intro text task target_language
    unfold ga_build_prompt
    split
    · rw [String.append_empty]
    · split
      · rw [String.append_empty]
      · split
        · rw [String.append_empty]
        · rw [String.append_empty]

/-- C9: the public operations of the Gemini/Claude variant are total at
their interface: the remote transcribe call and the Claude CLI summarize
call always return normally (a produced text or None) for every behaviour of
the backends, a non-zero subprocess exit becomes None, and a zero exit
returns the stripped standard output. -/
theorem c9_total_interface :
    (∀ (guess : String → Option String) (b : GeminiBackend) (p : String),
        ∃ r, (twg_transcribe_with_gemini guess b p).1 = .ret r) ∧
    (∀ (run : List String → PyOutcome SubprocResult) (text task : String),
        ∃ r, twg_summarize_with_claude run text task = .ret r) ∧
    (∀ (run : List String → PyOutcome SubprocResult) (text task : String) (res : SubprocResult),
        run ["claude", "say", twg_build_prompt text task] = .ret res →
        res.returncode ≠ 0 →
        twg_summarize_with_claude run text task = .ret none) ∧
    (∀ (run : List String → PyOutcome SubprocResult) (text task : String) (res : SubprocResult),
        run ["claude", "say", twg_build_prompt text task] = .ret res →
        res.returncode = 0 →
        twg_summarize_with_claude run text task = .ret (some (pyStrip res.stdout))) := by
  refine ⟨?_, ?_, ?_, ?_⟩
  · intro guess b p
    cases hu : b.upload p (twg_get_mime_type guess p) with
    | raise e => exact ⟨none, by simp [twg_transcribe_with_gemini, hu]⟩
    | ret f =>
      cases hg : b.generate f with
      | raise e => exact ⟨none, by simp [twg_transcribe_with_gemini, hu, hg]⟩
      | ret t =>
        cases hd : b.deleteFile f with
        | raise e => exact ⟨none, by simp [twg_transcribe_with_gemini, hu, hg, hd]⟩
        | ret u => exact ⟨some t, by simp [twg_transcribe_with_gemini, hu, hg, hd]⟩
  · intro run text task
    cases hr : run ["claude", "say", twg_build_prompt text task] with
    | raise e => exact ⟨none, by simp [twg_summarize_with_claude, hr]⟩
    | ret res =>
      by_cases h : res.returncode = 0
      · exact ⟨some (pyStrip res.stdout), by simp [twg_summarize_with_claude, hr, h]⟩
      · exact ⟨none, by simp [twg_summarize_with_claude, hr, h]⟩
  · intro run text task res h hrc
    simp [twg_summarize_with_claude, h, hrc]
  · intro run text task res h hrc
    simp [twg_summarize_with_claude, h, hrc]

/-- C9 witness: a failing subprocess exit is converted to a None result. -/
theorem c9_witness :
    twg_summarize_with_claude (fun _ => .ret ⟨1, "", "boom"⟩) "t" "summarize" = .ret none :=
  c9_total_interface.2.2.1 (fun _ => .ret ⟨1, "", "boom"⟩) "t" "summarize"
    ⟨1, "", "boom"⟩ rfl (by decide)

/-- C10: format_duration returns Unknown on a falsy argument (None or 0)
and decomposes every strictly positive number of seconds into hours, minutes
and seconds, omitting the hour field when hours are zero and the minute
field when hours and minutes are both zero. -/
theorem c10_format_duration :
    format_duration none = "Unknown" ∧
    format_duration (some 0) = "Unknown" ∧
    (∀ n : Nat, 0 < n → n < 60 → format_duration (some n) = toString n ++ "s") ∧
    (∀ n : Nat, 60 ≤ n → n < 3600 →
        format_duration (some n) = toString (n / 60) ++ "m " ++ toString (n % 60) ++ "s") ∧
    (∀ n : Nat, 3600 ≤ n →
        format_duration (some n) =
          toString (n / 3600) ++ "h " ++ toString (n % 3600 / 60) ++ "m " ++
            toString (n % 60) ++ "s") := by
  refine ⟨rfl, rfl, ?_, ?_, ?_⟩
  · intro n h1 h2
    have hne : (n != 0) = true := by simpa using Nat.pos_iff_ne_zero.mp h1
    have h3600 : n / 3600 = 0 := Nat.div_eq_of_lt (by omega)
    have hmod : n % 3600 = n := Nat.mod_eq_of_lt (by omega)
    have h60 : n / 60 = 0 := Nat.div_eq_of_lt h2
    have hm60 : n % 60 = n := Nat.mod_eq_of_lt h2
    simp [format_duration, pyTruthyNum, hne, h3600, hmod, h60, hm60]
  · intro n h1 h2
    have hne : (n != 0) = true := by simp; omega
    have h3600 : n / 3600 = 0 := Nat.div_eq_of_lt (by omega)
    have hmod : n % 3600 = n := Nat.mod_eq_of_lt (by omega)
    have h60 : 0 < n / 60 := Nat.div_pos h1 (by norm_num)
    simp [format_duration, pyTruthyNum, hne, h3600, hmod, Nat.not_lt.mpr (Nat.zero_le _), h60]
  · intro n h1
    have hne : (n != 0) = true := by simp; omega
    have h3600 : 0 < n / 3600 := Nat.div_pos h1 (by norm_num)
    simp [format_duration, pyTruthyNum, hne, h3600]

/-- C10 witness: instantiating the positive branches at concrete inputs. -/
theorem c10_witness :
    format_duration (some 75) = toString (75 / 60) ++ "m " ++ toString (75 % 60) ++ "s" ∧
    format_duration (some 3725) =
      toString (3725 / 3600) ++ "h " ++ toString (3725 % 3600 / 60) ++ "m " ++
        toString (3725 % 60) ++ "s" :=
  ⟨c10_format_duration.2.2.2.1 75 (by norm_num) (by norm_num),
   c10_format_duration.2.2.2.2 3725 (by norm_num)⟩
